import Mathlib

/-!
Shallow embedding of the chat subsystem of the classifieds-marketplace backend:
the WebSocket relay (connection handshake, chat_message handling, close handling,
the process-wide `clients` map) and the HTTP chat routes (get-or-create
conversation, list messages, send message).

Identifiers are strings, channels are identified by numeric connection ids,
timestamps are naturals drawn from a logical clock carried in the store.
The Prisma store is modelled as lists of rows plus a `healthy` flag: a store
operation that would throw (missing required argument, unresolved foreign key,
store unavailable) returns `none`, which the handlers turn into the same
responses the `catch` blocks produce.
-/

namespace Etl

/-- A conversation row: canonical (sorted) pair of participant ids plus the
last-activity timestamp (`updatedAt`). -/
structure Conv where
  id : String
  user1Id : String
  user2Id : String
  updatedAt : Nat
deriving DecidableEq, Repr

/-- A message row as created by `prisma.message.create` in the relay and the
send-message route. -/
structure Message where
  id : Nat
  conversationId : String
  senderId : String
  receiverId : String
  content : String
  createdAt : Nat
deriving DecidableEq, Repr

/-- The relational store: conversation rows, message rows in insertion order,
a fresh-id counter, a logical clock, and a health flag (false models "store
unavailable": every write throws). -/
structure Store where
  convs : List Conv
  msgs : List Message
  nextId : Nat
  now : Nat
  healthy : Bool
deriving DecidableEq, Repr

/-- Whole-system state: the store, the `clients` map (user id → connection id),
and the set of connection ids whose channel is currently OPEN. -/
structure SysState where
  store : Store
  registry : List (String × Nat)
  openConns : List Nat
deriving DecidableEq, Repr

/-! ## Connection Registry (the `clients` Map) -/

/-- `clients.get(u)`. -/
def regGet (u : String) (r : List (String × Nat)) : Option Nat :=
  (r.find? (fun p => p.1 == u)).map (fun p => p.2)

/-- Removal of every binding for `u` (the effect of `clients.delete(u)`). -/
def regRemove (u : String) (r : List (String × Nat)) : List (String × Nat) :=
  r.filter (fun p => p.1 != u)

/-- `clients.set(u, c)`: overwrites any previous binding for `u`. -/
def regSet (u : String) (c : Nat) (r : List (String × Nat)) : List (String × Nat) :=
  (u, c) :: regRemove u r

/-- The `ws.on('close')` handler: `if (ws.userId) clients.delete(ws.userId)` —
the delete is keyed on the user id only; the handler never compares the closing
channel with the registered one. -/
def handleClose (wsUserId : Option String) (r : List (String × Nat)) :
    List (String × Nat) :=
  match wsUserId with
  | some u => regRemove u r
  | none => r

/-! ## Connection handshake -/

/-- Outcome of the `wss.on('connection')` handler for one connection. -/
inductive ConnResult where
  | closed (code : Nat) (reason : String)
  | active (userId : String)
deriving DecidableEq, Repr

/-- The connection handler: token extracted from the query string; absent token
closes 1008 "No token provided"; `jwt.verify` failure closes 1008 "Invalid
token"; on success the user id is fixed and the connection registered. -/
def handleConnection (verify : String → Option String) (token : Option String)
    (connId : Nat) (st : SysState) : SysState × ConnResult :=
  match token with
  | none => (st, .closed 1008 "No token provided")
  | some t =>
    match verify t with
    | none => (st, .closed 1008 "Invalid token")
    | some uid =>
      ({ st with registry := regSet uid connId st.registry }, .active uid)

/-! ## Store operations (the Prisma calls the chat subsystem makes) -/

/-- `prisma.conversation.findUnique({ where: { id } })`. -/
def findConv (s : Store) (cid : String) : Option Conv :=
  s.convs.find? (fun c => c.id == cid)

/-- `prisma.conversation.findUnique({ where: { user1Id_user2Id } })` on the
composite unique key. -/
def findConvByPair (s : Store) (u1 u2 : String) : Option Conv :=
  s.convs.find? (fun c => c.user1Id == u1 && c.user2Id == u2)

/-- `prisma.message.create`: returns `none` (throws) when a required argument
is `undefined`, when the conversation foreign key does not resolve, or when the
store is unavailable; otherwise appends the row, stamping it with the clock. -/
def messageCreate (s : Store) (content : Option String) (senderId : String)
    (receiverId conversationId : Option String) : Option (Message × Store) :=
  match content, receiverId, conversationId with
  | some c, some r, some i =>
    if s.healthy && (findConv s i).isSome then
      let m : Message := { id := s.nextId, conversationId := i, senderId := senderId,
                           receiverId := r, content := c, createdAt := s.now }
      some (m, { s with msgs := s.msgs ++ [m], nextId := s.nextId + 1, now := s.now + 1 })
    else none
  | _, _, _ => none

/-- `prisma.conversation.update({ where: { id }, data: { updatedAt: new Date() } })`:
`none` (throws) when the row is absent or the store unavailable. -/
def convTouch (s : Store) (cid : String) : Option Store :=
  if s.healthy && (findConv s cid).isSome then
    some { s with
           convs := s.convs.map (fun c => if c.id == cid then { c with updatedAt := s.now } else c),
           now := s.now + 1 }
  else none

/-- Messages of one conversation as returned by
`prisma.message.findMany({ where: { conversationId }, orderBy: { createdAt: asc } })`;
rows are stored in insertion order and the clock is strictly increasing, so the
stored order is already the ascending `createdAt` order. -/
def messagesOf (s : Store) (cid : String) : List Message :=
  s.msgs.filter (fun m => m.conversationId == cid)

/-! ## The WebSocket message relay -/

/-- A parsed inbound frame: either `JSON.parse` threw, or an object with a
`type` tag and the three `chat_message` fields, each possibly `undefined`. -/
inductive Inbound where
  | unparseable
  | event (etype : String) (conversationId content receiverId : Option String)
deriving DecidableEq, Repr

/-- An outbound JSON event written to some channel with `.send`. -/
inductive OutEvent where
  | new_message (m : Message)
  | message_sent (m : Message)
  | errorMsg (reason : String)
deriving DecidableEq, Repr

/-- One `channel.send(...)` call: target connection id and the event sent. -/
structure Outbound where
  target : Nat
  event : OutEvent
deriving DecidableEq, Repr

/-- The `ws.on('message')` handler of an Active connection (fixed `userId`,
channel `connId`): parse; if `type === 'chat_message'`, create the message row,
touch the conversation, push `new_message` to the receiver's registered channel
when it is OPEN, and acknowledge the sender with `message_sent`. Any thrown
store error reaches the `catch`, which sends one `error` event to the sender.
An event of any other type falls through the `if` and nothing happens. -/
def wsHandleMessage (userId : String) (connId : Nat) (st : SysState)
    (data : Inbound) : SysState × List Outbound :=
  match data with
  | .unparseable => (st, [⟨connId, .errorMsg "Failed to process message"⟩])
  | .event t cid cont rid =>
    if t == "chat_message" then
      match messageCreate st.store cont userId rid cid with
      | none => (st, [⟨connId, .errorMsg "Failed to process message"⟩])
      | some (m, s1) =>
        match convTouch s1 m.conversationId with
        | none => ({ st with store := s1 }, [⟨connId, .errorMsg "Failed to process message"⟩])
        | some s2 =>
          let push : List Outbound :=
            match regGet m.receiverId st.registry with
            | some rc => if st.openConns.contains rc then [⟨rc, .new_message m⟩] else []
            | none => []
          ({ st with store := s2 }, push ++ [⟨connId, .message_sent m⟩])
    else (st, [])

/-! ## HTTP chat routes -/

/-- Responses of the chat routes, at the granularity the claims need. -/
inductive HttpResp where
  | jsonConv (c : Conv)
  | jsonMsgs (ms : List Message)
  | jsonMsg (status : Nat) (m : Message)
  | errJson (status : Nat) (e : String)
deriving DecidableEq, Repr

/-- `[req.userId, otherUserId].sort()`: JavaScript string sort, i.e. the pair
in lexicographic order. -/
def canonPair (a b : String) : String × String :=
  if a ≤ b then (a, b) else (b, a)

/-- The find-or-create body of `POST /conversation`: look the canonical pair up
on the composite unique key, create the row when absent. The create is a write:
it throws (`none`) when the store is unavailable; the route's catch turns that
into a 500 response. -/
def getOrCreateConversation (uid other : String) (s : Store) : Option (Conv × Store) :=
  let p := canonPair uid other
  match findConvByPair s p.1 p.2 with
  | some c => some (c, s)
  | none =>
    if s.healthy then
      let c : Conv := { id := "c" ++ toString s.nextId, user1Id := p.1, user2Id := p.2,
                        updatedAt := s.now }
      some (c, { s with convs := s.convs ++ [c], nextId := s.nextId + 1, now := s.now + 1 })
    else none

/-- JavaScript falsiness of a possibly-undefined string field
(`!x` is true for `undefined` and for the empty string). -/
def falsy (o : Option String) : Bool :=
  match o with
  | none => true
  | some v => v == ""

/-- `POST /conversation`: 400 when `otherUserId` is falsy, otherwise
find-or-create on the sorted pair, with a thrown store error reaching the catch
that responds 500. No other validation is performed. -/
def postConversation (uid : String) (otherUserId : Option String) (s : Store) :
    HttpResp × Store :=
  match otherUserId with
  | none => (.errJson 400 "Other user ID is required", s)
  | some o =>
    if o == "" then (.errJson 400 "Other user ID is required", s)
    else
      match getOrCreateConversation uid o s with
      | none => (.errJson 500 "Failed to get conversation", s)
      | some r => (.jsonConv r.1, r.2)

/-- `GET /messages/:conversationId`: 404 when the conversation is absent, 403
when the requester is neither participant, else the ascending message list. -/
def getMessages (uid cid : String) (s : Store) : HttpResp :=
  match findConv s cid with
  | none => .errJson 404 "Conversation not found"
  | some conv =>
    if conv.user1Id != uid && conv.user2Id != uid then .errJson 403 "Unauthorized"
    else .jsonMsgs (messagesOf s cid)

/-- `POST /message`: 400 on a falsy field, 404 when the conversation is absent,
403 when the requester is neither participant, else create the row, touch the
conversation and respond 201 with the persisted record. The route has no
reference to the `clients` map: it can neither read nor write the registry and
sends nothing over any channel. -/
def httpSendMessage (uid : String) (conversationId content receiverId : Option String)
    (st : SysState) : HttpResp × SysState × List Outbound :=
  if falsy conversationId || falsy content || falsy receiverId then
    (.errJson 400 "Missing required fields", st, [])
  else
    let cid := conversationId.getD ""
    match findConv st.store cid with
    | none => (.errJson 404 "Conversation not found", st, [])
    | some conv =>
      if conv.user1Id != uid && conv.user2Id != uid then
        (.errJson 403 "Unauthorized", st, [])
      else
        match messageCreate st.store content uid receiverId conversationId with
        | none => (.errJson 500 "Failed to send message", st, [])
        | some (m, s1) =>
          match convTouch s1 cid with
          | none => (.errJson 500 "Failed to send message", { st with store := s1 }, [])
          | some s2 => (.jsonMsg 201 m, { st with store := s2 }, [])

/-! ## Invariants and concrete fixtures -/

/-- At most one conversation row per (canonical) participant pair. -/
def pairUnique (s : Store) : Prop :=
  ∀ c1 ∈ s.convs, ∀ c2 ∈ s.convs,
    c1.user1Id = c2.user1Id → c1.user2Id = c2.user2Id → c1 = c2

/-- An empty healthy store. -/
def emptyStore : Store :=
  { convs := [], msgs := [], nextId := 0, now := 0, healthy := true }

/-- One conversation between users "a" and "b". -/
def demoConv : Conv :=
  { id := "c1", user1Id := "a", user2Id := "b", updatedAt := 0 }

/-- A healthy store holding just `demoConv`. -/
def demoStore : Store :=
  { convs := [demoConv], msgs := [], nextId := 0, now := 1, healthy := true }

/-- System state with `demoStore`, an empty registry and no open channels. -/
def demoState : SysState :=
  { store := demoStore, registry := [], openConns := [] }

/-- System state with `demoStore` where user "b" is registered on the open
channel 9. -/
def demoStateOnline : SysState :=
  { store := demoStore, registry := [("b", 9)], openConns := [9] }

/-- `demoState` with the store marked unavailable. -/
def demoStateDown : SysState :=
  { store := { demoStore with healthy := false }, registry := [], openConns := [] }

end Etl

namespace Etl

/-! ## Theorems: registry and handshake claims -/

/-- Helper: after `clients.delete(u)` no binding for `u` remains. -/
theorem regGet_regRemove (u : String) (r : List (String × Nat)) :
    regGet u (regRemove u r) = none := by
  have h : (regRemove u r).find? (fun p => p.1 == u) = none := by
    rw [List.find?_eq_none]
    intro x hx
    have hne := List.of_mem_filter hx
    simp only [bne_iff_ne, ne_eq] at hne
    simp [hne]
  simp [regGet, h]

/-- C1 counterexample: register channel 1 then channel 2 for user "u" (so lookup
returns channel 2), then fire the close handler of the superseded channel 1. The
claim says lookup still returns channel 2; in fact the entry is gone. -/
theorem c1_stale_close_counterexample :
    regGet "u" (regSet "u" 2 (regSet "u" 1 [])) = some 2 ∧
    regGet "u" (handleClose (some "u") (regSet "u" 2 (regSet "u" 1 []))) ≠ some 2 := by
  decide

/-- C1 amended: the close handler deletes the registry entry for the closing
connection's user id unconditionally (it never compares channels), so after c1
and then c2 are registered for u, a close event from the superseded connection
c1 removes c2's entry as well: lookup(u) returns nothing. -/
theorem c1_close_unconditional (u : String) (c1 c2 : Nat) (r : List (String × Nat)) :
    regGet u (handleClose (some u) (regSet u c2 (regSet u c1 r))) = none := by
  simpa [handleClose] using regGet_regRemove u (regSet u c2 (regSet u c1 r))

/-- C6: a handshake with no token is closed with reason "No token provided"; a
handshake whose token fails verification is closed with the distinct reason
"Invalid token"; in both cases the state (in particular the registry) is
untouched, so the connection is never registered and never becomes Active. -/
theorem c6_handshake_failures (verify : String → Option String) (t : String)
    (connId : Nat) (st : SysState) (hv : verify t = none) :
    handleConnection verify none connId st = (st, .closed 1008 "No token provided") ∧
    handleConnection verify (some t) connId st = (st, .closed 1008 "Invalid token") ∧
    ("No token provided" : String) ≠ "Invalid token" := by
  refine ⟨rfl, ?_, by decide⟩
  simp [handleConnection, hv]

/-- Witness for C6 at a verifier that rejects everything. -/
theorem c6_handshake_failures_witness :
    handleConnection (fun _ => none) none 5 demoState =
      (demoState, .closed 1008 "No token provided") ∧
    handleConnection (fun _ => none) (some "tok") 5 demoState =
      (demoState, .closed 1008 "Invalid token") ∧
    ("No token provided" : String) ≠ "Invalid token" :=
  c6_handshake_failures (fun _ => none) "tok" 5 demoState rfl

/-- Helper: `prisma.message.create` throws whenever a required argument is
`undefined`, whatever the store contents. -/
theorem messageCreate_missing (s : Store) (sid : String) (cont rid cid : Option String)
    (h : cont = none ∨ cid = none ∨ rid = none) :
    messageCreate s cont sid rid cid = none := by
  rcases h with h | h | h
  · subst h; cases rid <;> cases cid <;> rfl
  · subst h; cases cont <;> cases rid <;> rfl
  · subst h; cases cont <;> cases cid <;> rfl

/-- C3 counterexample: an event of unknown type on an Active connection is
dropped silently — the state is unchanged but, contrary to the claim, the
sender receives no acknowledgment at all (the output list is empty). -/
theorem c3_unknown_type_counterexample :
    wsHandleMessage "a" 1 demoState (.event "ping" (some "c1") (some "hi") (some "b")) =
      (demoState, []) := by
  decide

/-- C3 amended: an unparseable payload or a chat_message with a missing
required field yields one error acknowledgment to the sender and leaves the
state unchanged; an event of unknown type also leaves the state unchanged but
is silently ignored — no acknowledgment of any kind is sent. -/
theorem c3_malformed_events (uid : String) (connId : Nat) (st : SysState)
    (t : String) (cid cont rid : Option String)
    (hmiss : cont = none ∨ cid = none ∨ rid = none) (hunk : t ≠ "chat_message") :
    wsHandleMessage uid connId st .unparseable =
      (st, [⟨connId, .errorMsg "Failed to process message"⟩]) ∧
    wsHandleMessage uid connId st (.event "chat_message" cid cont rid) =
      (st, [⟨connId, .errorMsg "Failed to process message"⟩]) ∧
    wsHandleMessage uid connId st (.event t cid cont rid) = (st, []) := by
  refine ⟨rfl, ?_, ?_⟩
  · simp [wsHandleMessage, messageCreate_missing st.store uid cont rid cid hmiss]
  · simp [wsHandleMessage, hunk]

/-- Witness for C3 on concrete malformed frames. -/
theorem c3_malformed_events_witness :
    wsHandleMessage "a" 1 demoState .unparseable =
      (demoState, [⟨1, .errorMsg "Failed to process message"⟩]) ∧
    wsHandleMessage "a" 1 demoState (.event "chat_message" (some "c1") none (some "b")) =
      (demoState, [⟨1, .errorMsg "Failed to process message"⟩]) ∧
    wsHandleMessage "a" 1 demoState (.event "typing" (some "c1") none (some "b")) =
      (demoState, []) :=
  c3_malformed_events "a" 1 demoState "typing" (some "c1") none (some "b")
    (Or.inl rfl) (by decide)

/-- C4: when persisting the message throws, the handler reaches the catch
before the timestamp update, the receiver lookup or the delivery: the sender
gets exactly one error acknowledgment and the whole state — store, registry,
open channels — is exactly what it was before the event. -/
theorem c4_persistence_failure_atomic (uid : String) (connId : Nat) (st : SysState)
    (cid cont rid : Option String)
    (hfail : messageCreate st.store cont uid rid cid = none) :
    wsHandleMessage uid connId st (.event "chat_message" cid cont rid) =
      (st, [⟨connId, .errorMsg "Failed to process message"⟩]) := by
  simp [wsHandleMessage, hfail]

/-- Witness for C4: the store is down, so a well-formed send fails to persist
and nothing changes. -/
theorem c4_persistence_failure_witness :
    messageCreate demoStateDown.store (some "hi") "a" (some "b") (some "c1") = none ∧
    wsHandleMessage "a" 1 demoStateDown
        (.event "chat_message" (some "c1") (some "hi") (some "b")) =
      (demoStateDown, [⟨1, .errorMsg "Failed to process message"⟩]) :=
  ⟨by decide,
   c4_persistence_failure_atomic "a" 1 demoStateDown (some "c1") (some "hi") (some "b")
     (by decide)⟩

/-- C2 counterexample: user "x" is not a participant of conversation "c1"
(whose participants are "a" and "b"), yet a chat_message from "x" on a live
connection is persisted (a message row is created) and acknowledged with
message_sent — no authorization error is raised. -/
theorem c2_ws_no_participant_check_counterexample :
    (wsHandleMessage "x" 7 demoState
        (.event "chat_message" (some "c1") (some "hi") (some "b"))).1.store.msgs.length = 1 ∧
    (wsHandleMessage "x" 7 demoState
        (.event "chat_message" (some "c1") (some "hi") (some "b"))).2 =
      [⟨7, .message_sent { id := 0, conversationId := "c1", senderId := "x",
                           receiverId := "b", content := "hi", createdAt := 1 }⟩] := by
  decide

/-- C2 amended: the HTTP routes enforce the participant check — reading a
conversation's messages or posting into it as a non-participant is rejected
with 403 Unauthorized and the state is unchanged — but the live-connection
send path performs no participant check: a well-formed chat_message from a
non-participant into an existing conversation on a healthy store is persisted
(the message-row count grows by one). -/
theorem c2_participant_checks (uid cid cont rid : String) (connId : Nat)
    (st : SysState) (conv : Conv)
    (hconv : findConv st.store cid = some conv)
    (h1 : conv.user1Id ≠ uid) (h2 : conv.user2Id ≠ uid)
    (hcid : cid ≠ "") (hcont : cont ≠ "") (hrid : rid ≠ "")
    (hh : st.store.healthy = true) :
    getMessages uid cid st.store = .errJson 403 "Unauthorized" ∧
    httpSendMessage uid (some cid) (some cont) (some rid) st =
      (.errJson 403 "Unauthorized", st, []) ∧
    (wsHandleMessage uid connId st
        (.event "chat_message" (some cid) (some cont) (some rid))).1.store.msgs.length
      = st.store.msgs.length + 1 := by
  refine ⟨?_, ?_, ?_⟩
  · simp [getMessages, hconv, h1, h2]
  · simp [httpSendMessage, falsy, hcid, hcont, hrid, hconv, h1, h2]
  · have hfind : st.store.convs.find? (fun c => c.id == cid) = some conv := hconv
    simp [wsHandleMessage, messageCreate, convTouch, findConv, hfind, hh]

/-- Witness for C2 with the non-participant "x" and conversation "c1". -/
theorem c2_participant_checks_witness :
    getMessages "x" "c1" demoState.store = .errJson 403 "Unauthorized" ∧
    httpSendMessage "x" (some "c1") (some "hi") (some "b") demoState =
      (.errJson 403 "Unauthorized", demoState, []) ∧
    (wsHandleMessage "x" 7 demoState
        (.event "chat_message" (some "c1") (some "hi") (some "b"))).1.store.msgs.length
      = demoState.store.msgs.length + 1 :=
  c2_participant_checks "x" "c1" "hi" "b" 7 demoState demoConv (by decide)
    (by decide) (by decide) (by decide) (by decide) (by decide) rfl

/-- Helper: the JavaScript two-element sort is symmetric in its arguments. -/
theorem canonPair_comm (a b : String) : canonPair a b = canonPair b a := by
  unfold canonPair
  rcases le_total a b with h | h
  · by_cases h2 : b ≤ a
    · have hab : a = b := le_antisymm h h2
      subst hab; rfl
    · rw [if_pos h, if_neg h2]
  · by_cases h2 : a ≤ b
    · have hab : a = b := le_antisymm h2 h
      subst hab; rfl
    · rw [if_neg h2, if_pos h]

instance (s : Store) : Decidable (pairUnique s) := by
  unfold pairUnique; infer_instance

/-- Helper: find-or-create preserves uniqueness of conversation rows per
participant pair — a row is only created when the lookup on the composite
unique key found nothing. -/
theorem getOrCreate_pairUnique (uid other : String) (s : Store) (hU : pairUnique s) :
    ∀ c1 s1, getOrCreateConversation uid other s = some (c1, s1) → pairUnique s1 := by
  intro c1 s1 h
  simp only [getOrCreateConversation] at h
  rcases hfind : findConvByPair s (canonPair uid other).1 (canonPair uid other).2
    with _ | c
  · rw [hfind] at h
    by_cases hh : s.healthy = true
    · rw [if_pos hh] at h
      injection h with h
      injection h with hc hs
      subst hs
      have hmem : ∀ x ∈ s.convs,
          ¬(x.user1Id == (canonPair uid other).1 && x.user2Id == (canonPair uid other).2) = true := by
        rw [← List.find?_eq_none]
        exact hfind
      intro d1 hd1 d2 hd2 e1 e2
      simp only [List.mem_append, List.mem_singleton] at hd1 hd2
      rcases hd1 with hd1 | hd1 <;> rcases hd2 with hd2 | hd2
      · exact hU d1 hd1 d2 hd2 e1 e2
      · exact absurd (by simp [hd2] at e1 e2; simp [e1, e2]) (hmem d1 hd1)
      · exact absurd (by simp [hd1] at e1 e2; simp [← e1, ← e2]) (hmem d2 hd2)
      · rw [hd1, hd2]
    · rw [if_neg hh] at h
      exact Option.noConfusion h
  · rw [hfind] at h
    injection h with h
    injection h with hc hs
    subst hs
    exact hU

/-- C5: find-or-create is commutative in its two user arguments — invoked by A
with peer B and by B with peer A it runs identically, so a successful call
returns the same conversation identifier either way, because the pair is
canonicalized by sorting — and it preserves the invariant that at most one
conversation row exists per unordered user pair. -/
theorem c5_get_or_create_commutative (a b : String) (s : Store) :
    getOrCreateConversation a b s = getOrCreateConversation b a s ∧
    (∀ c1 s1 c2 s2, getOrCreateConversation a b s = some (c1, s1) →
      getOrCreateConversation b a s = some (c2, s2) → c1.id = c2.id) ∧
    (pairUnique s → ∀ c1 s1, getOrCreateConversation a b s = some (c1, s1) →
      pairUnique s1) := by
  have hcomm : getOrCreateConversation a b s = getOrCreateConversation b a s := by
    unfold getOrCreateConversation
    rw [canonPair_comm]
  refine ⟨hcomm, ?_, fun hU => getOrCreate_pairUnique a b s hU⟩
  intro c1 s1 c2 s2 h1 h2
  rw [hcomm] at h1
  rw [h1] at h2
  injection h2 with h2
  injection h2 with hc hs
  rw [hc]

/-- Witness for C5 on the empty store: both argument orders of the pair
("a","b") run identically, and a concrete successful call preserves the
uniqueness invariant. -/
theorem c5_get_or_create_commutative_witness :
    getOrCreateConversation "a" "b" emptyStore = getOrCreateConversation "b" "a" emptyStore ∧
    pairUnique ⟨[⟨"c0", "a", "a", 0⟩], [], 1, 1, true⟩ :=
  ⟨(c5_get_or_create_commutative "a" "b" emptyStore).1,
   (c5_get_or_create_commutative "a" "a" emptyStore).2.2 (by decide)
     ⟨"c0", "a", "a", 0⟩ ⟨[⟨"c0", "a", "a", 0⟩], [], 1, 1, true⟩
     (by
       have hcanon : canonPair "a" "a" = ("a", "a") := by
         unfold canonPair
         rw [if_pos (le_refl ("a" : String))]
       simp only [getOrCreateConversation, hcanon]
       rfl)⟩

/-- C10: the route validates only that `otherUserId` is present (truthy), so a
requester may pass their own id: on a working store, a conversation whose two
participants are the same user is created, and a repeated call with the same
self-pair returns that same conversation with the store unchanged; an absent
`otherUserId` is the only rejected shape. -/
theorem c10_self_conversation (uid : String) (s : Store) (hu : uid ≠ "")
    (hhealthy : s.healthy = true)
    (habs : findConvByPair s uid uid = none) :
    ∃ c s1,
      postConversation uid (some uid) s = (.jsonConv c, s1) ∧
      c.user1Id = uid ∧ c.user2Id = uid ∧
      postConversation uid (some uid) s1 = (.jsonConv c, s1) ∧
      postConversation uid none s = (.errJson 400 "Other user ID is required", s) := by
  have hcanon : canonPair uid uid = (uid, uid) := by
    unfold canonPair
    rw [if_pos (le_refl uid)]
  have huid : (uid == "") = false := by
    simp [hu]
  have habs2 : s.convs.find? (fun x => x.user1Id == uid && x.user2Id == uid) = none := habs
  refine ⟨⟨"c" ++ toString s.nextId, uid, uid, s.now⟩,
          ⟨s.convs ++ [⟨"c" ++ toString s.nextId, uid, uid, s.now⟩], s.msgs,
           s.nextId + 1, s.now + 1, s.healthy⟩, ?_, rfl, rfl, ?_, rfl⟩
  · simp [postConversation, huid, getOrCreateConversation, hcanon, habs, hhealthy]
  · have hfound :
        findConvByPair
          (⟨s.convs ++ [⟨"c" ++ toString s.nextId, uid, uid, s.now⟩], s.msgs,
            s.nextId + 1, s.now + 1, s.healthy⟩ : Store) uid uid =
          some ⟨"c" ++ toString s.nextId, uid, uid, s.now⟩ := by
      show (s.convs ++ [(⟨"c" ++ toString s.nextId, uid, uid, s.now⟩ : Conv)]).find?
          (fun x => x.user1Id == uid && x.user2Id == uid) = _
      simp [List.find?_append, habs2]
    simp [postConversation, huid, getOrCreateConversation, hcanon, hfound]

/-- Witness for C10: user "a" opens a conversation with themself twice. -/
theorem c10_self_conversation_witness :
    ∃ c s1,
      postConversation "a" (some "a") emptyStore = (.jsonConv c, s1) ∧
      c.user1Id = "a" ∧ c.user2Id = "a" ∧
      postConversation "a" (some "a") s1 = (.jsonConv c, s1) ∧
      postConversation "a" none emptyStore =
        (.errJson 400 "Other user ID is required", emptyStore) :=
  c10_self_conversation "a" emptyStore (by decide) rfl (by decide)

/-- Helper: touching a conversation's timestamp rewrites exactly the found row. -/
theorem findConv_touch (l : List Conv) (cid : String) (n : Nat) (conv : Conv)
    (h : l.find? (fun x => x.id == cid) = some conv) :
    (l.map (fun x => if x.id == cid then { x with updatedAt := n } else x)).find?
      (fun x => x.id == cid) = some { conv with updatedAt := n } := by
  induction l with
  | nil => simp at h
  | cons a t ih =>
    cases hb : (a.id == cid)
    · simp only [List.find?_cons, hb] at h
      simp only [List.map_cons, hb, Bool.false_eq_true, if_false, List.find?_cons]
      exact ih h
    · simp only [List.find?_cons, hb] at h
      injection h with h
      subst h
      have he : a.id = cid := by simpa using hb
      simp [List.find?_cons, he]

/-- C7: when a chat_message with all fields persists successfully, the handler
pushes exactly one new_message event — carrying the just-persisted record — to
the receiver's registered channel when that channel is open; when the receiver
is not registered it pushes nothing, and the persisted record is in the
conversation's message history; in both cases the sender receives a
message_sent acknowledgment carrying the same persisted record. -/
theorem c7_delivery (uid cont cid rid : String) (connId : Nat) (st : SysState)
    (conv : Conv) (hconv : findConv st.store cid = some conv)
    (hh : st.store.healthy = true) :
    (∀ rc, regGet rid st.registry = some rc → rc ∈ st.openConns →
      (wsHandleMessage uid connId st
          (.event "chat_message" (some cid) (some cont) (some rid))).2 =
        [⟨rc, .new_message ⟨st.store.nextId, cid, uid, rid, cont, st.store.now⟩⟩,
         ⟨connId, .message_sent ⟨st.store.nextId, cid, uid, rid, cont, st.store.now⟩⟩]) ∧
    (regGet rid st.registry = none →
      (wsHandleMessage uid connId st
          (.event "chat_message" (some cid) (some cont) (some rid))).2 =
        [⟨connId, .message_sent ⟨st.store.nextId, cid, uid, rid, cont, st.store.now⟩⟩] ∧
      (⟨st.store.nextId, cid, uid, rid, cont, st.store.now⟩ : Message) ∈
        messagesOf (wsHandleMessage uid connId st
            (.event "chat_message" (some cid) (some cont) (some rid))).1.store cid) := by
  have hfind : st.store.convs.find? (fun x => x.id == cid) = some conv := hconv
  constructor
  · intro rc hrc hopen
    simp [wsHandleMessage, messageCreate, convTouch, findConv, hfind, hh, hrc, hopen]
  · intro hrc
    constructor
    · simp [wsHandleMessage, messageCreate, convTouch, findConv, hfind, hh, hrc]
    · simp [wsHandleMessage, messageCreate, convTouch, findConv, hfind, hh, hrc,
            messagesOf, List.mem_filter]

/-- Witness for C7: sender "a" on channel 1; first with receiver "b" registered
on the open channel 9, then with "b" not registered. -/
theorem c7_delivery_witness :
    (wsHandleMessage "a" 1 demoStateOnline
        (.event "chat_message" (some "c1") (some "hi") (some "b"))).2 =
      [⟨9, .new_message ⟨0, "c1", "a", "b", "hi", 1⟩⟩,
       ⟨1, .message_sent ⟨0, "c1", "a", "b", "hi", 1⟩⟩] ∧
    ((wsHandleMessage "a" 1 demoState
        (.event "chat_message" (some "c1") (some "hi") (some "b"))).2 =
      [⟨1, .message_sent ⟨0, "c1", "a", "b", "hi", 1⟩⟩] ∧
     (⟨0, "c1", "a", "b", "hi", 1⟩ : Message) ∈
       messagesOf (wsHandleMessage "a" 1 demoState
           (.event "chat_message" (some "c1") (some "hi") (some "b"))).1.store "c1") :=
  ⟨(c7_delivery "a" "hi" "c1" "b" 1 demoStateOnline demoConv (by decide) rfl).1 9
     (by decide) (by decide),
   (c7_delivery "a" "hi" "c1" "b" 1 demoState demoConv (by decide) rfl).2 (by decide)⟩

/-- C9: a successful HTTP send persists the message and advances the
conversation's last-activity timestamp, yet the response carries no push to any
channel (the output list is empty) and the registry and open-channel set are
untouched — the route has no access to the connection registry. -/
theorem c9_http_send_frame (uid cid cont rid : String) (st : SysState)
    (conv : Conv) (hconv : findConv st.store cid = some conv)
    (hpart : conv.user1Id = uid ∨ conv.user2Id = uid)
    (hh : st.store.healthy = true)
    (hcid : cid ≠ "") (hcont : cont ≠ "") (hrid : rid ≠ "") :
    ∃ resp s2,
      httpSendMessage uid (some cid) (some cont) (some rid) st = (resp, s2, []) ∧
      s2.registry = st.registry ∧
      s2.openConns = st.openConns ∧
      s2.store.msgs = st.store.msgs ++ [⟨st.store.nextId, cid, uid, rid, cont, st.store.now⟩] ∧
      resp = .jsonMsg 201 ⟨st.store.nextId, cid, uid, rid, cont, st.store.now⟩ ∧
      findConv s2.store cid = some { conv with updatedAt := st.store.now + 1 } := by
  have hfind : st.store.convs.find? (fun x => x.id == cid) = some conv := hconv
  have hpartB : (conv.user1Id != uid && conv.user2Id != uid) = false := by
    rcases hpart with h | h <;> simp [h]
  have hcidB : (cid == "") = false := by simp [hcid]
  have hcontB : (cont == "") = false := by simp [hcont]
  have hridB : (rid == "") = false := by simp [hrid]
  have hmain : httpSendMessage uid (some cid) (some cont) (some rid) st =
      (.jsonMsg 201 ⟨st.store.nextId, cid, uid, rid, cont, st.store.now⟩,
       ⟨⟨st.store.convs.map
           (fun c => if c.id == cid then { c with updatedAt := st.store.now + 1 } else c),
         st.store.msgs ++ [⟨st.store.nextId, cid, uid, rid, cont, st.store.now⟩],
         st.store.nextId + 1, st.store.now + 1 + 1, st.store.healthy⟩,
        st.registry, st.openConns⟩, []) := by
    simp [httpSendMessage, falsy, hcidB, hcontB, hridB, findConv, hfind, hpartB,
          messageCreate, convTouch, hh]
  refine ⟨_, _, hmain, rfl, rfl, rfl, rfl, ?_⟩
  exact findConv_touch st.store.convs cid (st.store.now + 1) conv hfind

/-- Witness for C9: participant "a" posts into "c1" while receiver "b" is
registered on an open channel — still no push occurs. -/
theorem c9_http_send_frame_witness :
    ∃ resp s2,
      httpSendMessage "a" (some "c1") (some "hi") (some "b") demoStateOnline =
        (resp, s2, []) ∧
      s2.registry = demoStateOnline.registry ∧
      s2.openConns = demoStateOnline.openConns ∧
      s2.store.msgs = demoStateOnline.store.msgs ++ [⟨0, "c1", "a", "b", "hi", 1⟩] ∧
      resp = .jsonMsg 201 ⟨0, "c1", "a", "b", "hi", 1⟩ ∧
      findConv s2.store "c1" = some { demoConv with updatedAt := 2 } :=
  c9_http_send_frame "a" "c1" "hi" "b" demoStateOnline demoConv (by decide)
    (Or.inl rfl) rfl (by decide) (by decide) (by decide)

end Etl
